import Mathlib

/-!
Verification of the VSEPR-SIM scoring / classification / cataloging /
gap-targeting pipeline.

The Python sources are shallowly embedded:
* compositions (Python `Dict[str, int]`) become association lists
  `List (String × ℕ)` (dict keys are unique and insertion-ordered);
* Python floats become exact numbers: `ℚ` where only comparisons and
  rational arithmetic occur, `ℝ` where `math.exp`, `np.sqrt` or `**1.5`
  appear;
* `None`-returning detection helpers become `Option`-valued functions;
* the mutable coverage grid (`GapTargeter.cells`) becomes a total map
  from integer bin keys to cells, updated functionally.
-/

namespace VSEPR

/-! ## Compositions (element-count dictionaries) -/

/-- A composition: element symbol ↦ atom count, as an association list
(the embedding of the Python `Dict[str, int]`). -/
abbrev ElementCounts := List (String × ℕ)

/-- The keys of a composition (`element_counts.keys()`). -/
def keysOf (ec : ElementCounts) : List String := ec.map Prod.fst

/-- Embeds `element_counts.get(e, 0)`. -/
def getCount (ec : ElementCounts) (e : String) : ℕ := (ec.lookup e).getD 0

/-- Embeds `sum(element_counts.values())`. -/
def totalAtoms (ec : ElementCounts) : ℕ := (ec.map Prod.snd).sum

/-- Embeds `len(element_counts)`: number of distinct elements (dict keys are unique). -/
def uniqueElements (ec : ElementCounts) : ℕ := ec.length

/-! ## classification.py -/

/-- Embeds `Classification` dataclass from classification.py. -/
structure Classification where
  label : String
  confidence : ℚ
  bonus : ℚ
  reason : String

/-- Embeds `MolecularClassifier.metals` (classification.py). -/
def classifierMetals : List String :=
  ["Li", "Be", "Na", "Mg", "Al", "K", "Ca", "Sc", "Ti", "V", "Cr",
   "Mn", "Fe", "Co", "Ni", "Cu", "Zn", "Ga", "Rb", "Sr", "Y", "Zr",
   "Nb", "Mo", "Tc", "Ru", "Rh", "Pd", "Ag", "Cd", "In", "Sn", "Sb",
   "Cs", "Ba", "La", "Hf", "Ta", "W", "Re", "Os", "Ir", "Pt", "Au",
   "Hg", "Tl", "Pb", "Bi", "Fr", "Ra", "Ac"]

/-- Embeds `MolecularClassifier.semiconductor_elements`. -/
def semiconductor_elements : List String := ["Si", "Ge", "Ga", "As", "In", "Sb", "Te"]

/-- Embeds `MolecularClassifier.superalloy_metals`. -/
def superalloy_metals : List String := ["Ni", "Co", "Cr", "W", "Mo", "Re", "Ta", "Nb", "Ti", "Al"]

/-- Embeds `MolecularClassifier.acid_elements`. -/
def acid_elements : List String := ["S", "P", "N", "Cl", "Br", "I"]

/-- Embeds `sorted(<set of strings>)`: deduplicate and sort ascending. -/
def sortedSet (l : List String) : List String :=
  l.dedup.mergeSort (fun a b => decide (a ≤ b))

/-- Embeds `", ".join(l)`. -/
def joinComma (l : List String) : String := String.intercalate ", " l

/-- Embeds `MolecularClassifier._detect_organometallic`: carbon plus any metal. -/
def detect_organometallic (ec : ElementCounts) : Option Classification :=
  let elements := keysOf ec
  let has_carbon := "C" ∈ elements
  let has_metal := elements.any (fun e => e ∈ classifierMetals)
  if has_carbon ∧ has_metal then
    let metal_list := sortedSet (elements.filter (fun e => e ∈ classifierMetals))
    some { label := "organometallic", confidence := 1.0, bonus := 1.0,
           reason := "Contains C + metals (" ++ joinComma metal_list ++ ")" }
  else none

/-- Embeds `MolecularClassifier._detect_perfluorinated`: six or more fluorines. -/
def detect_perfluorinated (ec : ElementCounts) : Option Classification :=
  let F_count := getCount ec "F"
  if 6 ≤ F_count then
    some { label := "perfluorinated", confidence := 1.0, bonus := 0.8,
           reason := "Contains " ++ toString F_count ++ " fluorine atoms" }
  else none

/-- Embeds `MolecularClassifier._detect_semiconductor`. -/
def detect_semiconductor (ec : ElementCounts) : Option Classification :=
  let elements := keysOf ec
  let semi_present := (elements.filter (fun e => e ∈ semiconductor_elements)).dedup
  if semi_present.isEmpty then none
  else if ("Ga" ∈ elements ∧ "As" ∈ elements) ∨ ("In" ∈ elements ∧ "P" ∈ elements) ∨
          ("Cd" ∈ elements ∧ "Te" ∈ elements) then
    some { label := "semiconductor", confidence := 1.0, bonus := 0.7,
           reason := "Compound semiconductor (" ++ joinComma (sortedSet semi_present) ++ ")" }
  else if "Si" ∈ elements ∨ "Ge" ∈ elements then
    some { label := "semiconductor", confidence := 0.9, bonus := 0.7,
           reason := "Elemental semiconductor (" ++ joinComma (sortedSet semi_present) ++ ")" }
  else none

/-- Embeds `MolecularClassifier._detect_superalloy`: at least three distinct metals,
at least two from the superalloy set. -/
def detect_superalloy (ec : ElementCounts) : Option Classification :=
  let elements := keysOf ec
  let metals_present := (elements.filter (fun e => e ∈ classifierMetals)).dedup
  let superalloy_present := (elements.filter (fun e => e ∈ superalloy_metals)).dedup
  if 3 ≤ metals_present.length ∧ 2 ≤ superalloy_present.length then
    some { label := "metallic_superalloy", confidence := 0.8, bonus := 0.6,
           reason := "Multi-metal alloy (" ++ joinComma (sortedSet superalloy_present) ++ ")" }
  else none

/-- Embeds `MolecularClassifier._detect_super_acid`. -/
def detect_super_acid (ec : ElementCounts) : Option Classification :=
  let elements := keysOf ec
  let acid_present := (elements.filter (fun e => e ∈ acid_elements)).dedup
  if "C" ∈ elements ∧ "H" ∈ elements ∧ ¬acid_present.isEmpty then
    if "F" ∈ elements ∨ "S" ∈ elements then
      some { label := "organic_super_acid", confidence := 0.7, bonus := 0.5,
             reason := "Organic + acid elements (" ++ joinComma (sortedSet acid_present) ++ ")" }
    else none
  else none

/-- Embeds `MolecularClassifier._detect_super_base`. -/
def detect_super_base (ec : ElementCounts) : Option Classification :=
  let elements := keysOf ec
  let has_metal := elements.any (fun e => e ∈ classifierMetals)
  let N_count := getCount ec "N"
  if "C" ∈ elements ∧ "N" ∈ elements then
    if 2 ≤ N_count ∨ has_metal then
      some { label := "organic_super_base", confidence := 0.7, bonus := 0.5,
             reason := "Organic + N (count=" ++ toString N_count ++ ")" ++
                       (if has_metal then ", metal" else "") }
    else none
  else none

/-- Embeds `MolecularClassifier._detect_explosive`. -/
def detect_explosive (ec : ElementCounts) : Option Classification :=
  let elements := keysOf ec
  let N_count := getCount ec "N"
  let O_count := getCount ec "O"
  if 3 ≤ N_count ∧ 3 ≤ O_count ∧
     (0.3 : ℚ) ≤ (N_count : ℚ) / ((max 1 O_count : ℕ) : ℚ) ∧
     ((N_count : ℚ) / ((max 1 O_count : ℕ) : ℚ)) ≤ 1.5 then
    some { label := "explosive", confidence := 0.6, bonus := 0.3,
           reason := "High N+O content (N=" ++ toString N_count ++ ", O=" ++ toString O_count ++ ")" }
  else if "Cl" ∈ elements ∧ 4 ≤ O_count then
    some { label := "explosive", confidence := 0.5, bonus := 0.3,
           reason := "Perchlorate pattern (Cl + O=" ++ toString O_count ++ ")" }
  else none

/-- Embeds `MolecularClassifier.classify`: run all seven detectors in order, drop the
misses, sort by bonus descending (Python `list.sort(key=..., reverse=True)` is
a stable descending sort, embedded as a stable merge sort). -/
def classify (ec : ElementCounts) : List Classification :=
  (([detect_organometallic ec, detect_perfluorinated ec, detect_semiconductor ec,
     detect_superalloy ec, detect_super_acid ec, detect_super_base ec,
     detect_explosive ec]).filterMap id).mergeSort
    (fun a b => decide (b.bonus ≤ a.bonus))

/-! ## scoring.py -/

/-- Embeds `ScoreBreakdown` dataclass from scoring.py. -/
structure ScoreBreakdown where
  wN : ℝ
  wQ : ℝ
  wM : ℝ
  wD : ℝ
  wS : ℝ
  wC : ℝ
  cost : ℝ
  value : ℝ
  priority : ℝ
  classifications : List String

/-- Embeds `MolecularScorer` configuration (constructor defaults in scoring.py). -/
structure MolecularScorer where
  mu1 : ℝ
  mu2 : ℝ
  sigma1 : ℝ
  sigma2 : ℝ
  a : ℝ
  b : ℝ
  k_charge : ℝ
  alpha_metal : ℝ
  beta_diversity : ℝ
  lambda_cost : ℝ
  use_classification : Bool

/-- Embeds `default_scorer = MolecularScorer()` with the constructor defaults. -/
noncomputable def default_scorer : MolecularScorer :=
  { mu1 := 8.0, mu2 := 56.0, sigma1 := 3.0, sigma2 := 12.0, a := 1.0, b := 0.8,
    k_charge := 2.0, alpha_metal := 0.3, beta_diversity := 0.5, lambda_cost := 0.01,
    use_classification := true }

/-- Embeds `MolecularScorer.metal_symbols` used by `compute_wM` (scoring.py has its own
symbol set, slightly different from the classifier's). -/
def metal_symbols : List String :=
  ["Li", "Be", "Na", "Mg", "Al", "K", "Ca", "Sc", "Ti",
   "V", "Cr", "Mn", "Fe", "Co", "Ni", "Cu", "Zn", "Ga",
   "Rb", "Sr", "Y", "Zr", "Nb", "Mo", "Tc", "Ru", "Rh",
   "Pd", "Ag", "Cd", "In", "Cs", "Ba", "La", "Hf", "Ta",
   "W", "Re", "Os", "Ir", "Pt", "Au", "Hg", "Tl", "Fr",
   "Ra", "Ac"]

/-- Embeds `MolecularScorer.compute_wN`: dual-Gaussian size preference. -/
noncomputable def MolecularScorer.compute_wN (s : MolecularScorer) (N : ℕ) : ℝ :=
  s.a * Real.exp (-(((N : ℝ) - s.mu1) ^ 2) / (2 * s.sigma1 ^ 2)) +
  s.b * Real.exp (-(((N : ℝ) - s.mu2) ^ 2) / (2 * s.sigma2 ^ 2))

/-- Embeds `MolecularScorer.compute_wQ`: charge-neutrality penalty `exp(-k·|q|)`. -/
noncomputable def MolecularScorer.compute_wQ (s : MolecularScorer) (total_charge : ℝ) : ℝ :=
  Real.exp (-s.k_charge * |total_charge|)

/-- Embeds `sum(count for elem, count in element_counts.items() if elem in metal_symbols)`. -/
def metalAtomCount (ec : ElementCounts) : ℕ :=
  ((ec.filter (fun p => p.1 ∈ metal_symbols)).map Prod.snd).sum

/-- Embeds `MolecularScorer.compute_wM`: metal-richness reward, with the `N_total == 0`
fallback to `1.0`. -/
noncomputable def MolecularScorer.compute_wM (s : MolecularScorer) (ec : ElementCounts) : ℝ :=
  if totalAtoms ec = 0 then 1.0
  else 1.0 + s.alpha_metal * ((metalAtomCount ec : ℝ) / (totalAtoms ec : ℝ))

/-- Embeds `MolecularScorer.compute_wD`: diversity reward, with the `N <= 1` fallback
to `1.0`. -/
noncomputable def MolecularScorer.compute_wD (s : MolecularScorer) (ec : ElementCounts) : ℝ :=
  if totalAtoms ec ≤ 1 then 1.0
  else 1.0 + s.beta_diversity * ((uniqueElements ec : ℝ) / Real.log (1 + (totalAtoms ec : ℝ)))

/-- Embeds `MolecularScorer.compute_wC`: classification bonus `1 + Σ bonuses` plus the
label list; `1.0` when classification is disabled or nothing matched. -/
noncomputable def MolecularScorer.compute_wC (s : MolecularScorer) (ec : ElementCounts) :
    ℝ × List String :=
  if ¬s.use_classification then (1.0, [])
  else
    let classifications := classify ec
    if classifications.isEmpty then (1.0, [])
    else (1.0 + (((classifications.map Classification.bonus).sum : ℚ) : ℝ),
          classifications.map Classification.label)

/-- Embeds `MolecularScorer.compute_wS`: categorical stability gate. Exact values, so
`ℚ`-valued; `score` casts it to `ℝ`. -/
def MolecularScorer.compute_wS (_s : MolecularScorer) (health : String)
    (converged bounded : Bool) : ℚ :=
  if health = "converged" ∨ (bounded ∧ converged) then 1.0
  else if health = "bounded" ∨ bounded then 0.3
  else 0.05

/-- Embeds `MolecularScorer.compute_cost`: `N²` (long-range) or `N^1.5`, normalized
by `2000^1.5`. -/
noncomputable def MolecularScorer.compute_cost (_s : MolecularScorer) (N : ℕ)
    (has_long_range : Bool) : ℝ :=
  (if has_long_range then (N : ℝ) * (N : ℝ) else (N : ℝ) ^ (1.5 : ℝ)) /
    (2000 : ℝ) ^ (1.5 : ℝ)

/-- Embeds `MolecularScorer.score`: full scoring with breakdown. -/
noncomputable def MolecularScorer.score (s : MolecularScorer) (N : ℕ)
    (element_counts : ElementCounts) (total_charge : ℝ) (health : String)
    (converged bounded has_long_range : Bool) : ScoreBreakdown :=
  let wN := s.compute_wN N
  let wQ := s.compute_wQ total_charge
  let wM := s.compute_wM element_counts
  let wD := s.compute_wD element_counts
  let wCpair := s.compute_wC element_counts
  let wS : ℝ := (s.compute_wS health converged bounded : ℚ)
  let V := wN * wQ * wM * wD * wCpair.1 * wS
  let C := s.compute_cost N has_long_range
  let S := V / (1.0 + s.lambda_cost * C)
  let S_normalized := min 100.0 (S * 50.0)
  { wN := wN, wQ := wQ, wM := wM, wD := wD, wS := wS, wC := wCpair.1,
    cost := C, value := V, priority := S_normalized,
    classifications := wCpair.2 }

/-! ## discovery_pipeline.py: health and domain -/

/-- Embeds `DiscoveryPipeline._determine_health`. Energies and forces are exact
numbers here (`0.01`, `0.1`, `1e6`, `10.0` read as rationals). -/
def determine_health (converged stable : Bool) (energy max_force : ℚ) : String :=
  if converged = true ∧ stable = true ∧ max_force < 0.01 then "converged"
  else if energy < 0 ∧ max_force < 0.1 then "bounded"
  else if 1000000 < |energy| ∨ 10.0 < max_force then "exploded"
  else "invalid"

/-- Embeds `str.startswith` on Python strings, embedded over the character lists. -/
def startsWithPy (s p : String) : Bool := p.data.isPrefixOf s.data

/-- Embeds `DiscoveryPipeline._infer_domain`. -/
def infer_domain (formula : String) (num_atoms : ℕ) : String :=
  if num_atoms = 1 then "@molecule"
  else if num_atoms ≤ 10 then
    if startsWithPy formula "Ar" ∨ startsWithPy formula "He" then "@cluster"
    else "@molecule"
  else if num_atoms ≤ 100 then "@gas"
  else "@bulk"

/-- The domain actually attached to a run card:
`_generate_run_card` calls `self._infer_domain(record.formula, len(record.formula))`,
passing the character length of the formula string as `num_atoms`. -/
def run_card_domain (formula : String) : String :=
  infer_domain formula formula.length

/-- Modelled from the spec: the domain rule of §4.3 / claim C4, keyed on the
molecule's atom count `N` (with "dominated by noble-gas-like elements"
abstracted to a Boolean). Used only to compare the claim against
`run_card_domain`. -/
def claim_domain (N : ℕ) (noble_dominated : Bool) : String :=
  if N = 1 then "@molecule"
  else if N ≤ 10 then
    if noble_dominated then "@cluster" else "@molecule"
  else if N ≤ 100 then "@gas"
  else "@bulk"

/-! ## gap_targeter.py -/

/-- Embeds `Cell` dataclass from gap_targeter.py. Counters are naturals; energies,
deviations and mismatch are reals (they pass through `np.sqrt`). -/
structure Cell where
  scale : ℤ
  temp : ℚ
  density : ℚ
  n_runs : ℕ
  n_success : ℕ
  n_failures : ℕ
  mean_energy : ℝ
  std_energy : ℝ
  max_mismatch : ℝ

/-- Embeds `Cell.is_sparse`. -/
def Cell.is_sparse (c : Cell) (threshold : ℕ) : Bool := decide (c.n_runs < threshold)

/-- Embeds `Cell.is_high_mismatch`. -/
noncomputable def Cell.is_high_mismatch (c : Cell) (threshold : ℝ) : Bool :=
  decide (threshold < c.max_mismatch)

/-- Embeds `self.scale_bins = [2, 5, 10, 20, 50, 100]`. -/
def scale_bins : List ℤ := [2, 5, 10, 20, 50, 100]

/-- Embeds `np.linspace(50, 500, 10)`: step `(500-50)/9 = 50`. -/
def temp_bins : List ℚ := (List.range 10).map (fun k => 50 + 50 * (k : ℚ))

/-- Embeds `np.linspace(0.001, 0.1, 10)`: step `(0.1-0.001)/9 = 0.011`. -/
def density_bins : List ℚ := (List.range 10).map (fun k => 0.001 + 0.011 * (k : ℚ))

/-- Embeds `np.argmin`: index of the first minimum of a nonempty list (0 on `[]`). -/
def argmin_idx : List ℚ → ℕ
  | [] => 0
  | x :: xs =>
    (xs.enum.foldl (fun best p => if p.2 < best.2 then (p.1 + 1, p.2) else best) (0, x)).1

/-- Embeds `GapTargeter._get_cell_key`: nearest-bin assignment per axis. -/
def get_cell_key (scale : ℤ) (temp density : ℚ) : ℤ × ℤ × ℤ :=
  ((argmin_idx (scale_bins.map (fun s => |(s : ℚ) - (scale : ℚ)|)) : ℤ),
   (argmin_idx (temp_bins.map (fun t => |t - temp|)) : ℤ),
   (argmin_idx (density_bins.map (fun d => |d - density|)) : ℤ))

/-- Keys present in `self.cells` after `_initialize_grid`, in dict insertion
order (`i` outermost, then `j`, then `k`). -/
def gridKeys : List (ℤ × ℤ × ℤ) :=
  (List.range 6).flatMap (fun i =>
    (List.range 10).flatMap (fun j =>
      (List.range 10).map (fun k => ((i : ℤ), (j : ℤ), (k : ℤ)))))

/-- Embeds `key in self.cells`: the dict holds exactly the initialized 6×10×10 keys. -/
def validKey (key : ℤ × ℤ × ℤ) : Bool :=
  decide (0 ≤ key.1 ∧ key.1 < 6 ∧ 0 ≤ key.2.1 ∧ key.2.1 < 10 ∧ 0 ≤ key.2.2 ∧ key.2.2 < 10)

/-- The cell `_initialize_grid` creates for a key. -/
def initCell (key : ℤ × ℤ × ℤ) : Cell :=
  { scale := scale_bins.getD key.1.toNat 0,
    temp := temp_bins.getD key.2.1.toNat 0,
    density := density_bins.getD key.2.2.toNat 0,
    n_runs := 0, n_success := 0, n_failures := 0,
    mean_energy := 0.0, std_energy := 0.0, max_mismatch := 0.0 }

/-- The coverage grid: `GapTargeter.cells`, as a total map on keys (only
`validKey` entries are ever read or written). -/
structure Grid where
  cells : ℤ × ℤ × ℤ → Cell

/-- The grid right after `GapTargeter.__init__` / `_initialize_grid`. -/
def initial_grid : Grid := ⟨fun key => initCell key⟩

/-- The cell update performed inside `GapTargeter.record_run`: bump the
counters; on success fold the energy into the running mean and the running
standard deviation (Welford-style, dividing by the new success count). -/
noncomputable def record_update (c : Cell) (success : Bool) (energy : ℝ) : Cell :=
  let c1 := { c with n_runs := c.n_runs + 1,
                     n_success := if success then c.n_success + 1 else c.n_success,
                     n_failures := if success then c.n_failures else c.n_failures + 1 }
  if success then
    let n : ℕ := c1.n_success
    let old_mean := c.mean_energy
    let new_mean := old_mean + (energy - old_mean) / (n : ℝ)
    { c1 with
      mean_energy := new_mean,
      std_energy := Real.sqrt ((c.std_energy ^ 2 * ((n : ℝ) - 1) +
        (energy - old_mean) * (energy - new_mean)) / (n : ℝ)) }
  else c1

/-- Embeds `GapTargeter.record_run`: locate the cell for the parameters and update it. -/
noncomputable def record_run (g : Grid) (scale : ℤ) (temp density : ℚ)
    (success : Bool) (energy : ℝ) : Grid :=
  let key := get_cell_key scale temp density
  ⟨fun k => if k = key then record_update (g.cells key) success energy else g.cells k⟩

/-- The new `max_mismatch` of one cell in `GapTargeter.compute_mismatches`:
compare against the up-to-six axis neighbors that are in the grid and have at
least two successes; skip a pair with zero combined deviation; take the
maximum, keeping the old value when no neighbor qualifies. (The Python loop
mutates cells in place while iterating, but it only ever writes
`max_mismatch`, which no mismatch computation reads, so an in-place sweep and
this simultaneous update agree.) -/
noncomputable def mismatch_update (g : Grid) (key : ℤ × ℤ × ℤ) : Cell :=
  let c := g.cells key
  if c.n_success < 2 then c
  else
    let i := key.1
    let j := key.2.1
    let k := key.2.2
    let neighbors := [(i - 1, j, k), (i + 1, j, k), (i, j - 1, k),
                      (i, j + 1, k), (i, j, k - 1), (i, j, k + 1)]
    let mismatches := neighbors.filterMap (fun nk =>
      if validKey nk then
        let neighbor := g.cells nk
        if 2 ≤ neighbor.n_success then
          let delta := |c.mean_energy - neighbor.mean_energy|
          let combined_std := Real.sqrt (c.std_energy ^ 2 + neighbor.std_energy ^ 2)
          if 0 < combined_std then some (delta / combined_std) else none
        else none
      else none)
    if mismatches.isEmpty then c
    else { c with max_mismatch := mismatches.max?.getD c.max_mismatch }

/-- Embeds `GapTargeter.compute_mismatches`, as the simultaneous per-cell update. -/
noncomputable def compute_mismatches (g : Grid) : Grid :=
  ⟨fun key => if validKey key then mismatch_update g key else g.cells key⟩

/-- Embeds `self.cells.values()` in dict order. -/
def gridValues (g : Grid) : List Cell := gridKeys.map g.cells

/-- Embeds `GapTargeter.identify_gaps`: recompute mismatches, keep cells that are
sparse or high-mismatch, sort ascending by run count and then descending by
mismatch (stable, like Python's sort on the key `(n_runs, -max_mismatch)`). -/
noncomputable def identify_gaps (g : Grid) (sparse_threshold : ℕ)
    (mismatch_threshold : ℝ) : List Cell :=
  let g2 := compute_mismatches g
  let gaps := (gridValues g2).filter
    (fun c => c.is_sparse sparse_threshold || c.is_high_mismatch mismatch_threshold)
  gaps.mergeSort (fun a b =>
    decide (a.n_runs < b.n_runs ∨ (a.n_runs = b.n_runs ∧ b.max_mismatch ≤ a.max_mismatch)))

/-! ## Batch statistics (the spec side of claim C5) -/

/-- Modelled from the spec: the batch mean of a list of energies. -/
noncomputable def batch_mean (l : List ℝ) : ℝ := l.sum / (l.length : ℝ)

/-- Modelled from the spec: the batch (population) standard deviation. -/
noncomputable def batch_std (l : List ℝ) : ℝ :=
  Real.sqrt (((l.map (fun e => (e - batch_mean l) ^ 2)).sum) / (l.length : ℝ))

/-- The energies of the successful runs in a run sequence, in order. -/
def successEnergies (runs : List (Bool × ℝ)) : List ℝ :=
  (runs.filter (fun r => r.1)).map (fun r => r.2)

/-! ## Helper lemmas -/

lemma mem_classify_iff {ec : ElementCounts} {c : Classification} :
    c ∈ classify ec ↔
      some c ∈ [detect_organometallic ec, detect_perfluorinated ec, detect_semiconductor ec,
                detect_superalloy ec, detect_super_acid ec, detect_super_base ec,
                detect_explosive ec] := by
  unfold classify
  rw [List.Perm.mem_iff (List.mergeSort_perm _ _)]
  simp only [List.mem_filterMap, id, List.mem_cons, List.not_mem_nil, or_false]
  constructor
  · rintro ⟨a, ha, rfl⟩
    exact ha
  · intro h
    exact ⟨some c, h, rfl⟩

lemma detect_organometallic_bonus {ec : ElementCounts} {c : Classification}
    (h : detect_organometallic ec = some c) :
    c.label = "organometallic" ∧ c.confidence = 1.0 ∧ c.bonus = 1.0 := by
  simp only [detect_organometallic] at h
  split at h
  · injection h with h2
    subst h2
    exact ⟨rfl, rfl, rfl⟩
  · cases h

lemma detect_perfluorinated_bonus {ec : ElementCounts} {c : Classification}
    (h : detect_perfluorinated ec = some c) : c.bonus = 0.8 := by
  simp only [detect_perfluorinated] at h
  split at h
  · injection h with h2
    subst h2
    rfl
  · cases h

lemma detect_semiconductor_bonus {ec : ElementCounts} {c : Classification}
    (h : detect_semiconductor ec = some c) : c.bonus = 0.7 := by
  simp only [detect_semiconductor] at h
  split at h
  · cases h
  · split at h
    · injection h with h2
      subst h2
      rfl
    · split at h
      · injection h with h2
        subst h2
        rfl
      · cases h

lemma detect_superalloy_bonus {ec : ElementCounts} {c : Classification}
    (h : detect_superalloy ec = some c) : c.bonus = 0.6 := by
  simp only [detect_superalloy] at h
  split at h
  · injection h with h2
    subst h2
    rfl
  · cases h

lemma detect_super_acid_bonus {ec : ElementCounts} {c : Classification}
    (h : detect_super_acid ec = some c) : c.bonus = 0.5 := by
  simp only [detect_super_acid] at h
  split at h
  · split at h
    · injection h with h2
      subst h2
      rfl
    · cases h
  · cases h

lemma detect_super_base_bonus {ec : ElementCounts} {c : Classification}
    (h : detect_super_base ec = some c) : c.bonus = 0.5 := by
  simp only [detect_super_base] at h
  split at h
  · split at h
    · injection h with h2
      subst h2
      rfl
    · cases h
  · cases h

lemma detect_explosive_bonus {ec : ElementCounts} {c : Classification}
    (h : detect_explosive ec = some c) : c.bonus = 0.3 := by
  simp only [detect_explosive] at h
  split at h
  · injection h with h2
    subst h2
    rfl
  · split at h
    · injection h with h2
      subst h2
      rfl
    · cases h

lemma classify_bonus_nonneg {ec : ElementCounts} {c : Classification}
    (h : c ∈ classify ec) : 0 ≤ c.bonus := by
  have h7 := mem_classify_iff.mp h
  simp only [List.mem_cons, List.not_mem_nil, or_false] at h7
  rcases h7 with h1 | h1 | h1 | h1 | h1 | h1 | h1
  · have := detect_organometallic_bonus h1.symm
    rw [this.2.2]
    norm_num
  · rw [detect_perfluorinated_bonus h1.symm]
    norm_num
  · rw [detect_semiconductor_bonus h1.symm]
    norm_num
  · rw [detect_superalloy_bonus h1.symm]
    norm_num
  · rw [detect_super_acid_bonus h1.symm]
    norm_num
  · rw [detect_super_base_bonus h1.symm]
    norm_num
  · rw [detect_explosive_bonus h1.symm]
    norm_num

/-! ## Claim C3: health bands -/

/-- C3: `_determine_health` realises exactly the four-band cascade — the result
is `converged` iff the first condition holds, `bounded` iff the first fails and
the second holds, `exploded` iff the first two fail and the third holds, and
`invalid` iff all three fail; in particular the bands are mutually exclusive
and exhaustive. -/
theorem determine_health_bands (converged stable : Bool) (energy max_force : ℚ) :
    (determine_health converged stable energy max_force = "converged" ↔
      (converged = true ∧ stable = true ∧ max_force < 0.01)) ∧
    (determine_health converged stable energy max_force = "bounded" ↔
      (¬(converged = true ∧ stable = true ∧ max_force < 0.01) ∧
        energy < 0 ∧ max_force < 0.1)) ∧
    (determine_health converged stable energy max_force = "exploded" ↔
      (¬(converged = true ∧ stable = true ∧ max_force < 0.01) ∧
        ¬(energy < 0 ∧ max_force < 0.1) ∧ (1000000 < |energy| ∨ 10.0 < max_force))) ∧
    (determine_health converged stable energy max_force = "invalid" ↔
      (¬(converged = true ∧ stable = true ∧ max_force < 0.01) ∧
        ¬(energy < 0 ∧ max_force < 0.1) ∧ ¬(1000000 < |energy| ∨ 10.0 < max_force))) := by
  unfold determine_health
  split_ifs with h1 h2 h3 <;> simp_all

/-! ## Claim C4: run-card domain -/

/-- C4 counterexample: for the decane run card (formula `"C10H22"`, 32 atoms)
the pipeline attaches `@molecule`, because `_generate_run_card` passes
`len(record.formula) = 6` — the character length of the formula string — as
`num_atoms`, while the claim's atom-count rule (`claim_domain`, here with 32
atoms, not noble-gas dominated) yields `@gas`. -/
theorem run_card_domain_decane_counterexample :
    run_card_domain "C10H22" = "@molecule" ∧
    claim_domain 32 false = "@gas" ∧
    run_card_domain "C10H22" ≠ claim_domain 32 false := by
  refine ⟨by decide, by decide, by decide⟩

/-- C4 (amended): the domain tag attached to a run card is determined by the
character length of the formula string (the code's approximation of the atom
count): `@molecule` when the length is 1; for length ≤ 10, `@cluster` when the
formula starts with `"Ar"` or `"He"`, else `@molecule`; `@gas` for length
≤ 100; `@bulk` beyond. -/
theorem run_card_domain_formula_length_bands (formula : String) :
    (formula.length = 1 → run_card_domain formula = "@molecule") ∧
    (formula.length ≠ 1 → formula.length ≤ 10 →
      run_card_domain formula =
        (if startsWithPy formula "Ar" ∨ startsWithPy formula "He" then "@cluster"
         else "@molecule")) ∧
    (10 < formula.length → formula.length ≤ 100 → run_card_domain formula = "@gas") ∧
    (100 < formula.length → run_card_domain formula = "@bulk") := by
  unfold run_card_domain infer_domain
  refine ⟨fun h => by simp [h], fun h1 h2 => by simp [h1, h2], fun h1 h2 => ?_, fun h => ?_⟩
  · rw [if_neg (by omega), if_neg (by omega), if_pos h2]
  · rw [if_neg (by omega), if_neg (by omega), if_neg (by omega)]

/-- C4 witness: the decane formula string has length 6 (≠ 1, ≤ 10) and its
card domain follows the prefix rule at that length. -/
theorem run_card_domain_formula_length_bands_witness :
    ("C10H22" : String).length ≠ 1 ∧ ("C10H22" : String).length ≤ 10 ∧
    run_card_domain "C10H22" =
      (if startsWithPy "C10H22" "Ar" ∨ startsWithPy "C10H22" "He" then "@cluster"
       else "@molecule") :=
  ⟨by decide, by decide,
   (run_card_domain_formula_length_bands "C10H22").2.1 (by decide) (by decide)⟩

/-! ## Claim C7: organometallic classification -/

/-- C7: any composition whose key set contains carbon and at least one metal
yields an `organometallic` classification with bonus exactly 1.0 and
confidence 1.0, and water `{H:2, O:1}` yields no classifications at all. -/
theorem classify_organometallic_and_water (ec : ElementCounts)
    (hC : "C" ∈ keysOf ec) (hM : ∃ m ∈ keysOf ec, m ∈ classifierMetals) :
    (∃ c ∈ classify ec,
      c.label = "organometallic" ∧ c.bonus = 1.0 ∧ c.confidence = 1.0) ∧
    classify [("H", 2), ("O", 1)] = [] := by
  constructor
  · obtain ⟨m, hm, hmm⟩ := hM
    have hany : (keysOf ec).any (fun e => decide (e ∈ classifierMetals)) = true :=
      List.any_eq_true.mpr ⟨m, hm, by simpa using hmm⟩
    have hdet : ∃ r, detect_organometallic ec =
        some { label := "organometallic", confidence := 1.0, bonus := 1.0, reason := r } := by
      simp only [detect_organometallic]
      rw [if_pos ⟨hC, hany⟩]
      exact ⟨_, rfl⟩
    obtain ⟨r, hr⟩ := hdet
    refine ⟨{ label := "organometallic", confidence := 1.0, bonus := 1.0, reason := r },
      mem_classify_iff.mpr ?_, rfl, rfl, rfl⟩
    simp [hr]
  · have h0 : ([detect_organometallic [("H", 2), ("O", 1)],
        detect_perfluorinated [("H", 2), ("O", 1)], detect_semiconductor [("H", 2), ("O", 1)],
        detect_superalloy [("H", 2), ("O", 1)], detect_super_acid [("H", 2), ("O", 1)],
        detect_super_base [("H", 2), ("O", 1)],
        detect_explosive [("H", 2), ("O", 1)]].filterMap id) = [] := rfl
    unfold classify
    rw [h0]
    exact List.mergeSort_nil

/-- C7 witness: ferrocene-shaped `{C:10, H:10, Fe:1}` contains carbon and the
metal Fe, hence carries the organometallic classification. -/
theorem classify_organometallic_and_water_witness :
    ("C" ∈ keysOf [("C", 10), ("H", 10), ("Fe", 1)]) ∧
    (∃ c ∈ classify [("C", 10), ("H", 10), ("Fe", 1)],
      c.label = "organometallic" ∧ c.bonus = 1.0 ∧ c.confidence = 1.0) :=
  ⟨by decide,
   (classify_organometallic_and_water [("C", 10), ("H", 10), ("Fe", 1)]
     (by decide) ⟨"Fe", by decide, by decide⟩).1⟩

/-! ## Claim C8: stability gate for unknown health strings -/

/-- C8 counterexample: a health string outside the four enumerated states is
not always treated as invalid — with `converged = true` and `bounded = true`
the gate returns 1.0, not 0.05. -/
theorem compute_wS_unknown_health_counterexample :
    default_scorer.compute_wS "corrupted" true true = 1.0 ∧
    ¬(default_scorer.compute_wS "corrupted" true true = 0.05) := by
  constructor
  · norm_num [MolecularScorer.compute_wS]
  · norm_num [MolecularScorer.compute_wS]

/-- C8 (amended): for a health string outside the four enumerated states the
stability gate falls back to the Boolean flags: 1.0 when `bounded ∧ converged`,
0.3 when `bounded` alone, and 0.05 (the invalid/exploded gate) only when
`bounded` is false. -/
theorem compute_wS_unknown_health_flag_fallback (s : MolecularScorer)
    (health : String) (converged bounded : Bool)
    (hnot : health ∉ (["converged", "bounded", "exploded", "invalid"] : List String)) :
    s.compute_wS health converged bounded =
      (if bounded ∧ converged then (1.0 : ℚ) else if bounded then 0.3 else 0.05) := by
  have h1 : ¬(health = "converged") := fun h => hnot (by simp [h])
  have h2 : ¬(health = "bounded") := fun h => hnot (by simp [h])
  cases bounded <;> cases converged <;>
    simp [MolecularScorer.compute_wS, h1, h2]

/-- C8 witness: the unknown health string `"garbage"` with both flags false
goes through the fallback and gets the 0.05 gate. -/
theorem compute_wS_unknown_health_flag_fallback_witness :
    ("garbage" : String) ∉ (["converged", "bounded", "exploded", "invalid"] : List String) ∧
    default_scorer.compute_wS "garbage" false false =
      (if (false : Bool) ∧ (false : Bool) then (1.0 : ℚ) else if (false : Bool) then 0.3 else 0.05) :=
  ⟨by decide,
   compute_wS_unknown_health_flag_fallback default_scorer "garbage" false false (by decide)⟩

/-! ## Claim C9: failed runs and cell statistics -/

/-- C9: recording a failed run (`success = false`) bumps the located cell's
`n_runs` and `n_failures` by one and leaves `n_success`, `mean_energy` and
`std_energy` exactly unchanged. -/
theorem record_run_failure_updates_counters_only (g : Grid) (scale : ℤ)
    (temp density : ℚ) (energy : ℝ) :
    ((record_run g scale temp density false energy).cells (get_cell_key scale temp density)).n_runs
      = (g.cells (get_cell_key scale temp density)).n_runs + 1 ∧
    ((record_run g scale temp density false energy).cells (get_cell_key scale temp density)).n_failures
      = (g.cells (get_cell_key scale temp density)).n_failures + 1 ∧
    ((record_run g scale temp density false energy).cells (get_cell_key scale temp density)).n_success
      = (g.cells (get_cell_key scale temp density)).n_success ∧
    ((record_run g scale temp density false energy).cells (get_cell_key scale temp density)).mean_energy
      = (g.cells (get_cell_key scale temp density)).mean_energy ∧
    ((record_run g scale temp density false energy).cells (get_cell_key scale temp density)).std_energy
      = (g.cells (get_cell_key scale temp density)).std_energy := by
  simp [record_run, record_update]

/-! ## Claim C10: counter invariant -/

/-- A sequence of `record_run` calls, applied left to right. -/
noncomputable def record_runs (g : Grid) (runs : List (ℤ × ℚ × ℚ × Bool × ℝ)) : Grid :=
  runs.foldl (fun g r => record_run g r.1 r.2.1 r.2.2.1 r.2.2.2.1 r.2.2.2.2) g

lemma record_update_counter_split {c : Cell} (success : Bool) (energy : ℝ)
    (h : c.n_runs = c.n_success + c.n_failures) :
    (record_update c success energy).n_runs
      = (record_update c success energy).n_success
        + (record_update c success energy).n_failures := by
  cases success <;> simp [record_update, h] <;> omega

lemma record_run_counter_split (g : Grid) (scale : ℤ) (temp density : ℚ)
    (success : Bool) (energy : ℝ)
    (h : ∀ k, (g.cells k).n_runs = (g.cells k).n_success + (g.cells k).n_failures) :
    ∀ k, ((record_run g scale temp density success energy).cells k).n_runs
      = ((record_run g scale temp density success energy).cells k).n_success
        + ((record_run g scale temp density success energy).cells k).n_failures := by
  intro k
  by_cases hk : k = get_cell_key scale temp density
  · simp only [record_run, hk, if_pos rfl]
    exact record_update_counter_split success energy (h _)
  · simpa [record_run, hk] using h k

lemma record_runs_counter_split (runs : List (ℤ × ℚ × ℚ × Bool × ℝ)) (g : Grid)
    (h : ∀ k, (g.cells k).n_runs = (g.cells k).n_success + (g.cells k).n_failures) :
    ∀ k, ((record_runs g runs).cells k).n_runs
      = ((record_runs g runs).cells k).n_success
        + ((record_runs g runs).cells k).n_failures := by
  induction runs generalizing g with
  | nil => exact h
  | cons r rest ih =>
    exact ih _ (record_run_counter_split g r.1 r.2.1 r.2.2.1 r.2.2.2.1 r.2.2.2.2 h)

/-- C10: starting from the freshly initialized grid, after any sequence of
`record_run` calls every cell satisfies `n_runs = n_success + n_failures`. -/
theorem record_runs_counter_invariant (runs : List (ℤ × ℚ × ℚ × Bool × ℝ))
    (key : ℤ × ℤ × ℤ) :
    ((record_runs initial_grid runs).cells key).n_runs
      = ((record_runs initial_grid runs).cells key).n_success
        + ((record_runs initial_grid runs).cells key).n_failures :=
  record_runs_counter_split runs initial_grid
    (fun _ => by simp [initial_grid, initCell]) key

/-! ## Scoring factor bounds (claims C1 and C2) -/

lemma compute_wN_pos (N : ℕ) : 0 < default_scorer.compute_wN N := by
  simp only [MolecularScorer.compute_wN, default_scorer]
  positivity

lemma compute_wQ_pos (q : ℝ) : 0 < default_scorer.compute_wQ q := by
  simp only [MolecularScorer.compute_wQ]
  exact Real.exp_pos _

lemma one_le_compute_wM (ec : ElementCounts) : 1 ≤ default_scorer.compute_wM ec := by
  simp only [MolecularScorer.compute_wM, default_scorer]
  split_ifs with h
  · norm_num
  · have hnn : (0:ℝ) ≤ (metalAtomCount ec : ℝ) / (totalAtoms ec : ℝ) := by positivity
    linarith

lemma one_le_compute_wD (ec : ElementCounts) : 1 ≤ default_scorer.compute_wD ec := by
  simp only [MolecularScorer.compute_wD, default_scorer]
  split_ifs with h
  · norm_num
  · have h2 : (2:ℝ) ≤ (totalAtoms ec : ℝ) := by exact_mod_cast (by omega : 2 ≤ totalAtoms ec)
    have hlog : 0 < Real.log (1 + (totalAtoms ec : ℝ)) := Real.log_pos (by linarith)
    have hnn : (0:ℝ) ≤ (uniqueElements ec : ℝ) / Real.log (1 + (totalAtoms ec : ℝ)) :=
      div_nonneg (by positivity) hlog.le
    linarith

lemma one_le_compute_wC (ec : ElementCounts) : 1 ≤ (default_scorer.compute_wC ec).1 := by
  have hsumR : (0:ℝ) ≤ ((classify ec).map (Rat.cast ∘ Classification.bonus)).sum :=
    List.sum_nonneg fun x hx => by
      obtain ⟨c, hc, rfl⟩ := List.mem_map.mp hx
      have hb := classify_bonus_nonneg hc
      simp only [Function.comp_apply]
      exact_mod_cast hb
  simp only [MolecularScorer.compute_wC, default_scorer]
  split_ifs <;> simp <;> linarith

lemma compute_wS_cases (s : MolecularScorer) (health : String) (converged bounded : Bool) :
    s.compute_wS health converged bounded = 1.0 ∨
    s.compute_wS health converged bounded = 0.3 ∨
    s.compute_wS health converged bounded = 0.05 := by
  unfold MolecularScorer.compute_wS
  split_ifs <;> simp

lemma compute_wS_pos (s : MolecularScorer) (health : String) (converged bounded : Bool) :
    (0:ℚ) < s.compute_wS health converged bounded := by
  rcases compute_wS_cases s health converged bounded with h | h | h <;> rw [h] <;> norm_num

lemma compute_cost_nonneg (N : ℕ) (lr : Bool) : 0 ≤ default_scorer.compute_cost N lr := by
  simp only [MolecularScorer.compute_cost]
  cases lr <;> simp <;> positivity

lemma score_priority_bounds (N : ℕ) (ec : ElementCounts) (q : ℝ) (health : String)
    (converged bounded lr : Bool) :
    0 < (default_scorer.score N ec q health converged bounded lr).priority ∧
    (default_scorer.score N ec q health converged bounded lr).priority ≤ 100 := by
  have hwN := compute_wN_pos N
  have hwQ := compute_wQ_pos q
  have hwM : (0:ℝ) < default_scorer.compute_wM ec :=
    lt_of_lt_of_le zero_lt_one (one_le_compute_wM ec)
  have hwD : (0:ℝ) < default_scorer.compute_wD ec :=
    lt_of_lt_of_le zero_lt_one (one_le_compute_wD ec)
  have hwC : (0:ℝ) < (default_scorer.compute_wC ec).1 :=
    lt_of_lt_of_le zero_lt_one (one_le_compute_wC ec)
  have hwS : (0:ℝ) < ((default_scorer.compute_wS health converged bounded : ℚ) : ℝ) := by
    exact_mod_cast compute_wS_pos default_scorer health converged bounded
  have hcost := compute_cost_nonneg N lr
  have hV : 0 < default_scorer.compute_wN N * default_scorer.compute_wQ q *
      default_scorer.compute_wM ec * default_scorer.compute_wD ec *
      (default_scorer.compute_wC ec).1 *
      ((default_scorer.compute_wS health converged bounded : ℚ) : ℝ) :=
    mul_pos (mul_pos (mul_pos (mul_pos (mul_pos hwN hwQ) hwM) hwD) hwC) hwS
  have hden : (0:ℝ) < 1.0 + default_scorer.lambda_cost * default_scorer.compute_cost N lr := by
    have : (0:ℝ) ≤ default_scorer.lambda_cost * default_scorer.compute_cost N lr := by
      have hl : (0:ℝ) ≤ default_scorer.lambda_cost := by norm_num [default_scorer]
      exact mul_nonneg hl hcost
    linarith
  have hS : (0:ℝ) < (default_scorer.compute_wN N * default_scorer.compute_wQ q *
      default_scorer.compute_wM ec * default_scorer.compute_wD ec *
      (default_scorer.compute_wC ec).1 *
      ((default_scorer.compute_wS health converged bounded : ℚ) : ℝ)) /
      (1.0 + default_scorer.lambda_cost * default_scorer.compute_cost N lr) :=
    div_pos hV hden
  simp only [MolecularScorer.score]
  refine ⟨lt_min_iff.mpr ⟨by norm_num, by nlinarith⟩,
    le_trans (min_le_left _ _) (by norm_num)⟩

lemma score_factors_nonneg (N : ℕ) (ec : ElementCounts) (q : ℝ) (health : String)
    (converged bounded lr : Bool) :
    0 ≤ (default_scorer.score N ec q health converged bounded lr).wN ∧
    0 ≤ (default_scorer.score N ec q health converged bounded lr).wQ ∧
    0 ≤ (default_scorer.score N ec q health converged bounded lr).wM ∧
    0 ≤ (default_scorer.score N ec q health converged bounded lr).wD ∧
    0 ≤ (default_scorer.score N ec q health converged bounded lr).wS ∧
    0 ≤ (default_scorer.score N ec q health converged bounded lr).wC ∧
    0 ≤ (default_scorer.score N ec q health converged bounded lr).cost := by
  simp only [MolecularScorer.score]
  refine ⟨(compute_wN_pos N).le, (compute_wQ_pos q).le, ?_, ?_, ?_, ?_, compute_cost_nonneg N lr⟩
  · exact le_trans zero_le_one (one_le_compute_wM ec)
  · exact le_trans zero_le_one (one_le_compute_wD ec)
  · exact_mod_cast (compute_wS_pos default_scorer health converged bounded).le
  · exact le_trans zero_le_one (one_le_compute_wC ec)

/-! ## Claim C1: scoring at N = 0 -/

/-- C1 counterexample: at `N = 0` (empty composition, zero charge, health
`invalid`) the scorer does not raise anything — it returns an ordinary numeric
priority, strictly positive and at most 100. -/
theorem score_zero_atoms_counterexample :
    0 < (default_scorer.score 0 [] 0 "invalid" false false false).priority ∧
    (default_scorer.score 0 [] 0 "invalid" false false false).priority ≤ 100 :=
  score_priority_bounds 0 [] 0 "invalid" false false false

/-- C1 (amended): for `N = 0` the scorer performs no rejection: `compute_wM`
and `compute_wD` fall back to `1.0` and `score` returns a numeric priority in
`(0, 100]` for every composition, charge, health string and flag combination. -/
theorem score_zero_atoms_no_rejection (ec : ElementCounts) (q : ℝ) (health : String)
    (converged bounded lr : Bool) :
    0 < (default_scorer.score 0 ec q health converged bounded lr).priority ∧
    (default_scorer.score 0 ec q health converged bounded lr).priority ≤ 100 :=
  score_priority_bounds 0 ec q health converged bounded lr

/-! ## Claim C2: priority range -/

/-- C2: under the default configuration, for every valid composition
(`N ≥ 1`) and every combination of inputs the reported priority lies in
`[0, 100]`, and every factor `wN, wQ, wM, wD, wS, wC` as well as the cost is
non-negative. -/
theorem score_priority_in_range (N : ℕ) (hN : 1 ≤ N) (ec : ElementCounts) (q : ℝ)
    (health : String) (converged bounded lr : Bool) :
    (0 ≤ (default_scorer.score N ec q health converged bounded lr).priority ∧
      (default_scorer.score N ec q health converged bounded lr).priority ≤ 100) ∧
    (0 ≤ (default_scorer.score N ec q health converged bounded lr).wN ∧
      0 ≤ (default_scorer.score N ec q health converged bounded lr).wQ ∧
      0 ≤ (default_scorer.score N ec q health converged bounded lr).wM ∧
      0 ≤ (default_scorer.score N ec q health converged bounded lr).wD ∧
      0 ≤ (default_scorer.score N ec q health converged bounded lr).wS ∧
      0 ≤ (default_scorer.score N ec q health converged bounded lr).wC ∧
      0 ≤ (default_scorer.score N ec q health converged bounded lr).cost) :=
  ⟨⟨(score_priority_bounds N ec q health converged bounded lr).1.le,
    (score_priority_bounds N ec q health converged bounded lr).2⟩,
   score_factors_nonneg N ec q health converged bounded lr⟩

/-- C2 witness: the claim instantiated at the water composition with one atom
counted, zero charge, health `bounded`. -/
theorem score_priority_in_range_witness :
    (1 ≤ 1) ∧
    (0 ≤ (default_scorer.score 1 [("H", 2), ("O", 1)] 0 "bounded" false true false).priority ∧
      (default_scorer.score 1 [("H", 2), ("O", 1)] 0 "bounded" false true false).priority ≤ 100) :=
  ⟨le_refl 1,
   (score_priority_in_range 1 (le_refl 1) [("H", 2), ("O", 1)] 0 "bounded" false true false).1⟩

/-! ## Claim C5: incremental statistics match batch statistics -/

lemma sum_map_sub_sq_shift (l : List ℝ) (a b : ℝ) :
    (l.map (fun x => (x - b) ^ 2)).sum
      = (l.map (fun x => (x - a) ^ 2)).sum + 2 * (a - b) * (l.sum - (l.length : ℝ) * a)
        + (l.length : ℝ) * (a - b) ^ 2 := by
  induction l with
  | nil => simp
  | cons x xs ih =>
    simp only [List.map_cons, List.sum_cons, List.length_cons]
    rw [ih]
    push_cast
    ring

lemma batch_mean_append (es : List ℝ) (e : ℝ) :
    batch_mean (es ++ [e])
      = batch_mean es + (e - batch_mean es) / ((es.length : ℝ) + 1) := by
  by_cases h : es = []
  · subst h
    simp [batch_mean]
  · have hn : (es.length : ℝ) ≠ 0 := by
      have := List.length_pos.mpr h
      positivity
    have hn1 : (es.length : ℝ) + 1 ≠ 0 := by positivity
    simp only [batch_mean, List.sum_append, List.length_append, List.sum_cons,
      List.sum_nil, List.length_cons, List.length_nil]
    push_cast
    field_simp
    ring

lemma batch_mean_mul_length (es : List ℝ) :
    batch_mean es * (es.length : ℝ) = es.sum := by
  by_cases h : es = []
  · subst h
    simp [batch_mean]
  · have hn : (es.length : ℝ) ≠ 0 := by
      have := List.length_pos.mpr h
      positivity
    rw [batch_mean, div_mul_cancel₀ _ hn]

lemma batch_M2_nonneg (l : List ℝ) :
    0 ≤ (l.map (fun x => (x - batch_mean l) ^ 2)).sum :=
  List.sum_nonneg fun x hx => by
    obtain ⟨y, _, rfl⟩ := List.mem_map.mp hx
    positivity

lemma batch_std_sq (l : List ℝ) :
    batch_std l ^ 2 * (l.length : ℝ)
      = (l.map (fun x => (x - batch_mean l) ^ 2)).sum := by
  by_cases h : l = []
  · subst h
    simp [batch_std, batch_mean]
  · have hn : (l.length : ℝ) ≠ 0 := by
      have := List.length_pos.mpr h
      positivity
    rw [batch_std, Real.sq_sqrt (div_nonneg (batch_M2_nonneg l) (by positivity)),
      div_mul_cancel₀ _ hn]

lemma welford_M2_append (es : List ℝ) (e : ℝ) :
    (es.map (fun x => (x - batch_mean es) ^ 2)).sum
      + (e - batch_mean es) * (e - batch_mean (es ++ [e]))
    = ((es ++ [e]).map (fun x => (x - batch_mean (es ++ [e])) ^ 2)).sum := by
  have hm' := batch_mean_append es e
  have hS := batch_mean_mul_length es
  have hn1 : ((es.length : ℝ) + 1) ≠ 0 := by positivity
  rw [List.map_append, List.sum_append, hm',
    sum_map_sub_sq_shift es (batch_mean es)
      (batch_mean es + (e - batch_mean es) / ((es.length : ℝ) + 1))]
  simp only [List.map_cons, List.map_nil, List.sum_cons, List.sum_nil, add_zero]
  have hzero : es.sum - (es.length : ℝ) * batch_mean es = 0 := by
    rw [mul_comm, hS]
    ring
  rw [hzero]
  field_simp
  ring

lemma record_update_success_stats (c : Cell) (es : List ℝ) (e : ℝ)
    (hn : c.n_success = es.length) (hm : c.mean_energy = batch_mean es)
    (hs : c.std_energy = batch_std es) :
    (record_update c true e).n_success = (es ++ [e]).length ∧
    (record_update c true e).mean_energy = batch_mean (es ++ [e]) ∧
    (record_update c true e).std_energy = batch_std (es ++ [e]) := by
  refine ⟨by simp [record_update, hn], ?_, ?_⟩
  · simp only [record_update, if_true]
    rw [hm, hn, batch_mean_append]
    push_cast
    ring
  · have hsq := batch_std_sq es
    have hm' := batch_mean_append es e
    simp only [record_update, if_true]
    rw [hs, hm, hn]
    conv_rhs => rw [batch_std]
    congr 1
    have hcast : (((es.length + 1 : ℕ) : ℝ)) = (es.length : ℝ) + 1 := by push_cast; ring
    rw [hcast]
    have h1 : ((es.length : ℝ) + 1 - 1) = (es.length : ℝ) := by ring
    rw [h1, hsq, ← hm', welford_M2_append es e]
    congr 1
    simp

lemma record_update_failure_stats (c : Cell) (e : ℝ) :
    (record_update c false e).n_success = c.n_success ∧
    (record_update c false e).mean_energy = c.mean_energy ∧
    (record_update c false e).std_energy = c.std_energy := by
  refine ⟨?_, ?_, ?_⟩ <;> simp [record_update]

lemma record_update_fold_stats (runs : List (Bool × ℝ)) (c : Cell) (es : List ℝ)
    (hn : c.n_success = es.length) (hm : c.mean_energy = batch_mean es)
    (hs : c.std_energy = batch_std es) :
    (runs.foldl (fun c r => record_update c r.1 r.2) c).n_success
      = (es ++ successEnergies runs).length ∧
    (runs.foldl (fun c r => record_update c r.1 r.2) c).mean_energy
      = batch_mean (es ++ successEnergies runs) ∧
    (runs.foldl (fun c r => record_update c r.1 r.2) c).std_energy
      = batch_std (es ++ successEnergies runs) := by
  induction runs generalizing c es with
  | nil =>
    simpa [successEnergies] using ⟨hn, hm, hs⟩
  | cons r rest ih =>
    obtain ⟨b, e⟩ := r
    cases b
    · have hf := record_update_failure_stats c e
      have := ih (record_update c false e) es (hf.1.trans hn) (hf.2.1.trans hm)
        (hf.2.2.trans hs)
      simpa [successEnergies] using this
    · have hstep := record_update_success_stats c es e hn hm hs
      have := ih (record_update c true e) (es ++ [e]) hstep.1 hstep.2.1 hstep.2.2
      simpa [successEnergies, List.filter_cons, List.append_assoc] using this

lemma foldl_record_run_cells_key (runs : List (Bool × ℝ)) (g : Grid) (scale : ℤ)
    (temp density : ℚ) :
    ((runs.foldl (fun g r => record_run g scale temp density r.1 r.2) g).cells
        (get_cell_key scale temp density))
      = runs.foldl (fun c r => record_update c r.1 r.2)
          (g.cells (get_cell_key scale temp density)) := by
  induction runs generalizing g with
  | nil => rfl
  | cons r rest ih =>
    simp only [List.foldl_cons]
    rw [ih]
    congr 1
    simp [record_run]

/-- C5: recording any sequence of runs at fixed parameters into the fresh
grid leaves, in the targeted cell, exactly the batch mean and the batch
(population) standard deviation of the successful energies — failures
contribute nothing (exact arithmetic; the Python code carries the same
recurrences on floats). -/
theorem coverage_cell_stats_match_batch (scale : ℤ) (temp density : ℚ)
    (runs : List (Bool × ℝ)) :
    ((runs.foldl (fun g r => record_run g scale temp density r.1 r.2)
        initial_grid).cells (get_cell_key scale temp density)).mean_energy
      = batch_mean (successEnergies runs) ∧
    ((runs.foldl (fun g r => record_run g scale temp density r.1 r.2)
        initial_grid).cells (get_cell_key scale temp density)).std_energy
      = batch_std (successEnergies runs) := by
  rw [foldl_record_run_cells_key]
  have h0n : (initial_grid.cells (get_cell_key scale temp density)).n_success
      = ([] : List ℝ).length := by simp [initial_grid, initCell]
  have h0m : (initial_grid.cells (get_cell_key scale temp density)).mean_energy
      = batch_mean [] := by norm_num [initial_grid, initCell, batch_mean]
  have h0s : (initial_grid.cells (get_cell_key scale temp density)).std_energy
      = batch_std [] := by norm_num [initial_grid, initCell, batch_std, batch_mean]
  have h := record_update_fold_stats runs _ [] h0n h0m h0s
  exact ⟨by simpa using h.2.1, by simpa using h.2.2⟩

/-! ## Claim C6: gap selection -/

lemma mem_identify_gaps_iff (g : Grid) (thr : ℕ) (mthr : ℝ) (c : Cell) :
    c ∈ identify_gaps g thr mthr ↔
      c ∈ gridValues (compute_mismatches g) ∧
        (c.is_sparse thr || c.is_high_mismatch mthr) = true := by
  simp only [identify_gaps]
  rw [List.Perm.mem_iff (List.mergeSort_perm _ _)]
  exact List.mem_filter

/-- C6: after the mismatch recomputation performed by `identify_gaps`, a cell
whose `n_runs` is strictly below the sparse threshold is always in the gap
list, and a cell at or above the threshold whose `max_mismatch` is below the
mismatch threshold is never in it. -/
theorem identify_gaps_membership (g : Grid) (sparse_threshold : ℕ)
    (mismatch_threshold : ℝ) (c : Cell)
    (hc : c ∈ gridValues (compute_mismatches g)) :
    (c.n_runs < sparse_threshold →
      c ∈ identify_gaps g sparse_threshold mismatch_threshold) ∧
    (sparse_threshold ≤ c.n_runs → c.max_mismatch < mismatch_threshold →
      c ∉ identify_gaps g sparse_threshold mismatch_threshold) := by
  constructor
  · intro h
    refine (mem_identify_gaps_iff g sparse_threshold mismatch_threshold c).mpr ⟨hc, ?_⟩
    simp [Cell.is_sparse, h]
  · intro h1 h2 hmem
    have h3 := ((mem_identify_gaps_iff g sparse_threshold mismatch_threshold c).mp hmem).2
    simp only [Cell.is_sparse, Cell.is_high_mismatch, Bool.or_eq_true,
      decide_eq_true_eq] at h3
    rcases h3 with h | h
    · omega
    · exact absurd h2 (not_lt.mpr h.le)

/-- C6 witness: in the freshly initialized grid the cell at key `(0,0,0)` has
zero runs, so with the default thresholds it is in the gap list. -/
theorem identify_gaps_membership_witness :
    ((compute_mismatches initial_grid).cells (0, 0, 0)
        ∈ gridValues (compute_mismatches initial_grid)) ∧
    ((compute_mismatches initial_grid).cells (0, 0, 0)).n_runs < 10 ∧
    ((compute_mismatches initial_grid).cells (0, 0, 0)
        ∈ identify_gaps initial_grid 10 0.5) := by
  have hkey : ((0, 0, 0) : ℤ × ℤ × ℤ) ∈ gridKeys := by decide
  have hmem : (compute_mismatches initial_grid).cells (0, 0, 0)
      ∈ gridValues (compute_mismatches initial_grid) :=
    List.mem_map_of_mem _ hkey
  have hcell : (compute_mismatches initial_grid).cells (0, 0, 0) = initCell (0, 0, 0) := rfl
  have hrun : ((compute_mismatches initial_grid).cells (0, 0, 0)).n_runs < 10 := by
    rw [hcell]
    norm_num [initCell]
  exact ⟨hmem, hrun,
    (identify_gaps_membership initial_grid 10 0.5 _ hmem).1 hrun⟩

end VSEPR
